import Mathlib

/-!
Verification of the resumable session-state core of the Geofinder app.

The embedding below translates, from the TypeScript sources, the state and
the operations of the three game screens:
  - `src/screens/MainMenu.tsx` (the `GameScreen` component),
  - `src/screens/PanoGameScreen.tsx`,
  - the AI-duel screen (`AiDuel` component).

React `useState` fields become record fields; every handler becomes a pure
function from the old state (plus the inputs the handler reads: the clock,
the outcome of an external call, the durable store content) to the new state
and its storage effect.  Durable storage (`AsyncStorage`) is modelled per
key: the per-screen snapshot key holds an `Option` of a raw stored value
(absent, an unparseable string, a parsed non-object, or a parsed record),
and the high-score keys hold an optional integer.  JavaScript numbers that
the code only ever adds, subtracts and compares are modelled as `Int`.
-/

namespace Geofinder

/-! ## Prefetch slot

Embedding of `prefetchNextRound` (MainMenu.tsx lines 1010-1022 and
PanoGameScreen.tsx lines 170-182; the two bodies are identical up to the
producer that is awaited).  The mutable cell `prefetchIdRef.current` is the
`counter` field, the `nextRound` state is the `slot` field.  Issuing a
request is the synchronous part `const requestId = ++prefetchIdRef.current`;
resolving is the continuation after `await producer()`:
`if (!result) return; if (prefetchIdRef.current === requestId) setNextRound(result)`.
-/

structure PrefetchState (α : Type) where
  counter : Nat
  slot : Option α
deriving DecidableEq, Repr

/-- Synchronous part of `prefetchNextRound`: increment the token counter and
remember the token of this request. -/
def prefetchIssue (s : PrefetchState α) : PrefetchState α × Nat :=
  ({ s with counter := s.counter + 1 }, s.counter + 1)

/-- Continuation of `prefetchNextRound` after the awaited producer comes back
with `result`: a null result is dropped, and a payload is stored only when the
token counter still equals the token of this request. -/
def prefetchResolve (s : PrefetchState α) (requestId : Nat) (result : Option α) :
    PrefetchState α :=
  match result with
  | none => s
  | some r => if s.counter = requestId then { s with slot := some r } else s

/-- Whether a completion with this token and result would write the slot. -/
def prefetchAccepted (s : PrefetchState α) (requestId : Nat) (result : Option α) : Bool :=
  result.isSome && s.counter == requestId

/-! ## Round payloads

Shapes of the round payloads.  `PrefetchedRound` comes from
`services/geoApiUtils` (a module that is not under `src/`); its shape is
taken from its uses in `GameScreen.startGame` (fields `image.url`,
`image.coord`, `image.contributor`, `countryInfo`).  `PanoRound` is declared
in PanoGameScreen.tsx lines 40-58.  Coordinates are JavaScript numbers used
only as opaque values here, modelled as integers. -/

structure Coord where
  lat : Int
  lon : Int
deriving DecidableEq, Repr

structure CountryInfo where
  country : String
  countryCode : String
  displayName : String
deriving DecidableEq, Repr

structure ImageInfo where
  url : String
  coord : Coord
  contributor : Option String
deriving DecidableEq, Repr

structure PrefetchedRound where
  image : ImageInfo
  countryInfo : Option CountryInfo
deriving DecidableEq, Repr

structure PanoResult where
  url : String
  coord : Coord
  contributor : Option String
deriving DecidableEq, Repr

structure PanoRound where
  pano : PanoResult
  countryInfo : Option CountryInfo
deriving DecidableEq, Repr

/-! ## Game screen state

In-memory state of the `GameScreen` component (MainMenu.tsx lines 976-1003),
one record field per `useState` hook that the session logic touches, plus
`summaryTimerArmed` for the pending summary timer held in
`summaryTimeoutRef` (armed by the external `scheduleSummaryModal` helper,
cleared by `cancelSummaryModal`). -/

structure GameState where
  loading : Bool
  imageUrl : Option String
  country : Option String
  countryCode : Option String
  displayName : Option String
  coord : Option Coord
  contributor : Option String
  guess : String
  guessCount : Int
  incorrectGuesses : List String
  feedback : String
  gameOver : Bool
  currentScore : Int
  highScore : Int
  nextRound : Option PrefetchedRound
  roundNumber : Int
  correctAnswers : Int
  completedRounds : Int
  showGameSummary : Bool
  gameSessionId : Option String
  submitToLeaderboard : Bool
  isContinued : Bool
  summaryTimerArmed : Bool
deriving DecidableEq, Repr

/-- Initial values of the `useState` hooks of `GameScreen` when no prefetched
round is passed through navigation parameters. -/
def initialGameState : GameState :=
  { loading := false
    imageUrl := none
    country := none
    countryCode := none
    displayName := none
    coord := none
    contributor := none
    guess := ""
    guessCount := 0
    incorrectGuesses := []
    feedback := ""
    gameOver := false
    currentScore := 0
    highScore := 0
    nextRound := none
    roundNumber := 1
    correctAnswers := 0
    completedRounds := 0
    showGameSummary := false
    gameSessionId := none
    submitToLeaderboard := true
    isContinued := false
    summaryTimerArmed := false }

def TOTAL_ROUNDS : Int := 10

/-- Rendering of a nullable string inside a template literal (JavaScript
prints `null` for a null value). -/
def displayNameText : Option String → String
  | some s => s
  | none => "null"

/-- Stand-in for `Number.prototype.toFixed(4)`; coordinates are opaque here
and no claim depends on the digits, so integer printing is used. -/
def toFixed4 (n : Int) : String := toString n

/-- Whitespace stripped by `String.prototype.trim`; the characters the game
ever feeds it make space, tab and line breaks sufficient. -/
def isJsWhitespace (c : Char) : Bool :=
  c = ' ' || c = '\t' || c = '\n' || c = '\r'

/-- Embedding of `String.prototype.trim`: strip leading and trailing
whitespace. -/
def jsTrim (s : String) : String :=
  ⟨((s.data.dropWhile isJsWhitespace).reverse.dropWhile isJsWhitespace).reverse⟩

/-- Feedback string of the correct branch of `submitGuess`. -/
def correctFeedback (displayName : Option String) : String :=
  "✅ Correct! It was " ++ displayNameText displayName

/-- Feedback string of the round-failure branch of `submitGuess`. -/
def gameOverFeedback (displayName : Option String) (coord : Option Coord) : String :=
  let coordStr : String :=
    match coord with
    | some c => "(" ++ toFixed4 c.lat ++ ", " ++ toFixed4 c.lon ++ ")"
    | none => ""
  "❌ Game over! It was " ++ displayNameText displayName ++
    (if coordStr = "" then "" else " " ++ coordStr)

/-- Feedback string of the try-again branch of `submitGuess`. -/
def tryAgainFeedback (newGuessCount : Int) : String :=
  "❌ Not quite. Try again! (Guess " ++ toString newGuessCount ++ "/3)"

/-- Embedding of `submitGuess` (MainMenu.tsx lines 1087-1159; the body of
`PanoGameScreen.submitGuess`, PanoGameScreen.tsx lines 247-319, is character
for character the same logic over the same fields, differing only in the name
of the high-score storage key, which the per-screen wrappers below apply).
The correctness of the guess is decided by the external
`matchGuess(normalizedGuess, country, countryCode)` from
`services/geoApiUtils` (not under `src/`), so it enters here as the
`isCorrect` argument.  The second component of the result is the value
written to the durable high-score key by
`AsyncStorage.setItem(highScoreKey, newScore.toString())`, or `none` when no
write happens. -/
def submitGuess (s : GameState) (isCorrect : Bool) : GameState × Option Int :=
  if jsTrim s.guess = "" then (s, none)
  else
    let newGuessCount : Int := s.guessCount + 1
    let s1 := { s with guessCount := newGuessCount }
    let step : GameState × Option Int :=
      if isCorrect then
        let s2 := { s1 with
          feedback := correctFeedback s1.displayName
          gameOver := true
          correctAnswers := s1.correctAnswers + 1 }
        let pointsEarned : Int :=
          if newGuessCount = 1 then 3
          else if newGuessCount = 2 then 2
          else if newGuessCount = 3 then 1
          else 0
        let newScore := s2.currentScore + pointsEarned
        let s3 := { s2 with currentScore := newScore }
        if s3.highScore < newScore then
          ({ s3 with highScore := newScore }, some newScore)
        else (s3, none)
      else
        let s2 := { s1 with incorrectGuesses := s1.incorrectGuesses ++ [s1.guess] }
        if 3 ≤ newGuessCount then
          let s3 := { s2 with feedback := gameOverFeedback s2.displayName s2.coord }
          let s4 :=
            if s3.isContinued then { s3 with currentScore := s3.currentScore - 1 }
            else s3
          ({ s4 with gameOver := true }, none)
        else
          ({ s2 with feedback := tryAgainFeedback newGuessCount }, none)
    let s5 := { step.1 with guess := "" }
    if isCorrect || 3 ≤ newGuessCount then
      let updatedCompleted := s5.completedRounds + 1
      if TOTAL_ROUNDS ≤ updatedCompleted then
        ({ s5 with completedRounds := updatedCompleted, summaryTimerArmed := true },
          step.2)
      else
        ({ s5 with completedRounds := updatedCompleted, roundNumber := s5.roundNumber + 1 },
          step.2)
    else (s5, step.2)

/-! ## Persisted snapshot of the game screen

Record written under the key `geofinder.gameState.v1` (the `PersistedGameState`
type of MainMenu.tsx lines 946-969).  `savedAt` is optional there
(`savedAt?: number`); `none` models an absent or non-numeric timestamp, which
is what the restore path tests with `typeof parsed.savedAt !== 'number'`. -/

structure PersistedGameState where
  imageUrl : Option String
  country : Option String
  countryCode : Option String
  displayName : Option String
  coord : Option Coord
  contributor : Option String
  guess : String
  guessCount : Int
  incorrectGuesses : List String
  feedback : String
  gameOver : Bool
  currentScore : Int
  highScore : Int
  nextRound : Option PrefetchedRound
  roundNumber : Int
  correctAnswers : Int
  completedRounds : Int
  showGameSummary : Bool
  gameSessionId : Option String
  submitToLeaderboard : Bool
  isContinued : Bool
  savedAt : Option Int
deriving DecidableEq, Repr

/-- Snapshot kept in `lastStateRef` by the effect at MainMenu.tsx lines
1344-1390: every persisted field copied from the current state, without a
timestamp (the timestamp is added at write time). -/
def snapshotOfGameState (s : GameState) : PersistedGameState :=
  { imageUrl := s.imageUrl
    country := s.country
    countryCode := s.countryCode
    displayName := s.displayName
    coord := s.coord
    contributor := s.contributor
    guess := s.guess
    guessCount := s.guessCount
    incorrectGuesses := s.incorrectGuesses
    feedback := s.feedback
    gameOver := s.gameOver
    currentScore := s.currentScore
    highScore := s.highScore
    nextRound := s.nextRound
    roundNumber := s.roundNumber
    correctAnswers := s.correctAnswers
    completedRounds := s.completedRounds
    showGameSummary := s.showGameSummary
    gameSessionId := s.gameSessionId
    submitToLeaderboard := s.submitToLeaderboard
    isContinued := s.isContinued
    savedAt := none }

/-- Raw content found under the snapshot key in the untyped durable store:
either a string that `JSON.parse` rejects, a parsed value that is not an
object (`!parsed || typeof parsed !== 'object'`), or a parsed record. -/
inductive StoredGameValue
  | garbled
  | atom
  | record (p : PersistedGameState)
deriving DecidableEq, Repr

def GAME_STATE_MAX_AGE_MS : Int := 1000 * 60 * 60 * 8

/-- JavaScript truthiness of a nullable string: null and the empty string are
falsy. -/
def truthyStr : Option String → Bool
  | none => false
  | some u => u != ""

/-- Embedding of `persistGameState` (MainMenu.tsx lines 1170-1190).  The
result is the content of the snapshot key after the call: a null snapshot or
one with a falsy `imageUrl` removes the key, otherwise the snapshot merged
with `savedAt = Date.now()` is written. -/
def persistGameState (snapshot : Option PersistedGameState) (now : Int) :
    Option StoredGameValue :=
  match snapshot with
  | none => none
  | some snap =>
    if truthyStr snap.imageUrl then some (.record { snap with savedAt := some now })
    else none

/-- Result of a restore attempt: the returned flag, the content of the
snapshot key afterwards, and the in-memory state afterwards. -/
structure RestoreOutcome where
  found : Bool
  store : Option StoredGameValue
  state : GameState
deriving DecidableEq, Repr

/-- Hydration performed by the setter block of `restorePersistedGameState`
(MainMenu.tsx lines 1223-1278).  On values of the persisted record type the
per-field `typeof` and `Number.isFinite` validations are identities (a
`string | null` field passes its string test exactly when it is non-null, an
integer is always finite, a list of strings survives the string filter), so
each field is copied; `setLoading(false)` ends the block. -/
def applyPersistedFields (p : PersistedGameState) (s : GameState) : GameState :=
  { s with
    imageUrl := p.imageUrl
    coord := p.coord
    contributor := p.contributor
    country := p.country
    countryCode := p.countryCode
    displayName := p.displayName
    guess := p.guess
    guessCount := p.guessCount
    incorrectGuesses := p.incorrectGuesses
    feedback := p.feedback
    gameOver := p.gameOver
    currentScore := p.currentScore
    highScore := p.highScore
    roundNumber := p.roundNumber
    correctAnswers := p.correctAnswers
    completedRounds := p.completedRounds
    showGameSummary := p.showGameSummary
    gameSessionId := p.gameSessionId
    submitToLeaderboard := p.submitToLeaderboard
    isContinued := p.isContinued
    nextRound := p.nextRound
    loading := false }

/-- Embedding of `restorePersistedGameState` (MainMenu.tsx lines 1200-1285).
An absent key returns false; an unparseable value throws inside `JSON.parse`,
lands in the catch block and returns false with the key left in place; a
non-object, a record with falsy `imageUrl` or without a numeric `savedAt`,
and an expired record are cleared via `clearPersistedGameState` and return
false; otherwise every field is hydrated and the call returns true (the key
is not touched on success). -/
def restorePersistedGameState (st : Option StoredGameValue) (now : Int)
    (s : GameState) : RestoreOutcome :=
  match st with
  | none => ⟨false, none, s⟩
  | some .garbled => ⟨false, some .garbled, s⟩
  | some .atom => ⟨false, none, s⟩
  | some (.record p) =>
    match p.savedAt with
    | none => ⟨false, none, s⟩
    | some t =>
      if truthyStr p.imageUrl then
        if GAME_STATE_MAX_AGE_MS < now - t then ⟨false, none, s⟩
        else ⟨true, some (.record p), applyPersistedFields p s⟩
      else ⟨false, none, s⟩

/-! ## Suppression flag and lifecycle handlers of the game screen -/

inductive AppStateNext
  | active
  | inactive
  | background
deriving DecidableEq, Repr

/-- Outcome of a lifecycle step: the suppression flag and the snapshot key
afterwards. -/
structure PersistFlagStep where
  skipPersist : Bool
  store : Option StoredGameValue
deriving DecidableEq, Repr

/-- Embedding of the unmount cleanup of `GameScreen` (MainMenu.tsx lines
1467-1476): when the suppression flag is clear the snapshot is persisted,
otherwise nothing is written and the flag is reset to false. -/
def gameScreenUnmountCleanup (skipPersist : Bool)
    (snapshot : Option PersistedGameState) (now : Int)
    (st : Option StoredGameValue) : PersistFlagStep :=
  if skipPersist then ⟨false, st⟩
  else ⟨skipPersist, persistGameState snapshot now⟩

/-- Embedding of `handleAppStateChange` of `GameScreen` (MainMenu.tsx lines
1422-1430): on a transition to background or inactive, the snapshot is
persisted unless the suppression flag is set; the flag itself is never
written by this handler. -/
def gameScreenAppStateChange (next : AppStateNext) (skipPersist : Bool)
    (snapshot : Option PersistedGameState) (now : Int)
    (st : Option StoredGameValue) : PersistFlagStep :=
  match next with
  | .active => ⟨skipPersist, st⟩
  | _ =>
    if skipPersist then ⟨skipPersist, st⟩
    else ⟨skipPersist, persistGameState snapshot now⟩

/-! ## Persisted snapshot of the panorama screen

Record written under the key `geofinder.panoGameState.v1` (the
`PersistedPanoState` type of PanoGameScreen.tsx lines 60-83). -/

structure PersistedPanoState where
  panoramaUrl : Option String
  country : Option String
  countryCode : Option String
  displayName : Option String
  coord : Option Coord
  contributor : Option String
  guess : String
  guessCount : Int
  incorrectGuesses : List String
  feedback : String
  gameOver : Bool
  currentScore : Int
  highScore : Int
  nextRound : Option PanoRound
  roundNumber : Int
  correctAnswers : Int
  completedRounds : Int
  showGameSummary : Bool
  gameSessionId : Option String
  submitToLeaderboard : Bool
  isContinued : Bool
  savedAt : Option Int
deriving DecidableEq, Repr

/-- Raw content found under the panorama snapshot key. -/
inductive StoredPanoValue
  | garbled
  | atom
  | record (p : PersistedPanoState)
deriving DecidableEq, Repr

/-- Embedding of the panorama screen helper `persistGameState`
(PanoGameScreen.tsx lines 330-350): a null snapshot or one with a falsy
`panoramaUrl` removes the key, otherwise the snapshot merged with
`savedAt = Date.now()` is written.  This defensive helper is declared in the
component but is not invoked from its lifecycle handlers. -/
def panoPersistGameState (snapshot : Option PersistedPanoState) (now : Int) :
    Option StoredPanoValue :=
  match snapshot with
  | none => none
  | some snap =>
    if truthyStr snap.panoramaUrl then
      some (.record { snap with savedAt := some now })
    else none

/-- Outcome of a panorama lifecycle step. -/
structure PanoFlagStep where
  skipPersist : Bool
  store : Option StoredPanoValue
deriving DecidableEq, Repr

/-- Embedding of `handleAppStateChange` of the panorama screen
(PanoGameScreen.tsx lines 576-596): on background or inactive, unless the
suppression flag is set, the snapshot in `lastStateRef` is written inline by
`AsyncStorage.setItem` whenever it is non-null, with no check of its
`panoramaUrl`. -/
def panoAppStateChange (next : AppStateNext) (skipPersist : Bool)
    (snapshot : Option PersistedPanoState) (now : Int)
    (st : Option StoredPanoValue) : PanoFlagStep :=
  match next with
  | .active => ⟨skipPersist, st⟩
  | _ =>
    if skipPersist then ⟨skipPersist, st⟩
    else
      match snapshot with
      | none => ⟨skipPersist, st⟩
      | some snap => ⟨skipPersist, some (.record { snap with savedAt := some now })⟩

/-- Embedding of the unmount cleanup of the panorama screen
(PanoGameScreen.tsx lines 629-656): when the suppression flag is clear the
snapshot is written inline whenever non-null (again with no `panoramaUrl`
check), otherwise nothing is written and the flag is reset to false. -/
def panoUnmountCleanup (skipPersist : Bool)
    (snapshot : Option PersistedPanoState) (now : Int)
    (st : Option StoredPanoValue) : PanoFlagStep :=
  if skipPersist then ⟨false, st⟩
  else
    match snapshot with
    | none => ⟨skipPersist, st⟩
    | some snap => ⟨skipPersist, some (.record { snap with savedAt := some now })⟩

/-- Concrete panorama snapshot with no active round: every field still at its
initial value, as `lastStateRef` holds right after mount and before the first
round arrives (panoramaUrl is null). -/
def emptyPanoSnapshot : PersistedPanoState :=
  { panoramaUrl := none
    country := none
    countryCode := none
    displayName := none
    coord := none
    contributor := none
    guess := ""
    guessCount := 0
    incorrectGuesses := []
    feedback := ""
    gameOver := false
    currentScore := 0
    highScore := 0
    nextRound := none
    roundNumber := 1
    correctAnswers := 0
    completedRounds := 0
    showGameSummary := false
    gameSessionId := none
    submitToLeaderboard := true
    isContinued := false
    savedAt := none }

/-! ## New-game transition and the high-score key -/

/-- Outcome of the awaited `submitScore` call, which is an external
collaborator from `services/leaderAuthUtils` (not under `src/`): it either
resolves or throws. -/
inductive SubmitOutcome
  | success
  | failure
deriving DecidableEq, Repr

/-- Result of the New Game press: the state afterwards, whether a score
submission was attempted, and whether `initGameSession` (the embedding of
`initializeGameSession`, which acquires a fresh session identifier through
`startGameSession` and then starts a round) was invoked. -/
structure NewGameResult where
  state : GameState
  submissionAttempted : Bool
  sessionRestarted : Bool
deriving DecidableEq, Repr

/-- Reset block shared by both branches of the New Game handler:
`setCurrentScore(0); setCorrectAnswers(0); setCompletedRounds(0);
setRoundNumber(1); setIsContinued(false)`. -/
def resetForNewGame (s : GameState) : GameState :=
  { s with
    currentScore := 0
    correctAnswers := 0
    completedRounds := 0
    roundNumber := 1
    isContinued := false }

/-- Embedding of the New Game `onPress` handler on the summary modal
(MainMenu.tsx lines 1633-1676; PanoGameScreen.tsx lines 792-835 is the same
logic).  When the user has not opted out, a session id exists and the score
is positive, `submitScore` is awaited: on success the state is reset and
`initializeGameSession` starts a fresh session, while the catch branch only
shows an error alert and neither resets nor restarts anything.  When no
submission is attempted the reset and restart happen unconditionally. -/
def newGamePress (s : GameState) (outcome : SubmitOutcome) : NewGameResult :=
  if s.submitToLeaderboard ∧ s.gameSessionId ≠ none ∧ 0 < s.currentScore then
    match outcome with
    | .success => ⟨resetForNewGame s, true, true⟩
    | .failure => ⟨s, true, false⟩
  else ⟨resetForNewGame s, false, true⟩

/-- Durable keys read and written by the game screen: the session snapshot
key `geofinder.gameState.v1` and the high-score key `highScore`.  The
high-score key stores the decimal rendering of an integer, written by
`newScore.toString()` and read back by `parseInt(stored, 10)`; that numeric
round trip is the identity, so the key is modelled as holding the integer. -/
structure GameScreenStore where
  gameState : Option StoredGameValue
  highScore : Option Int
deriving DecidableEq, Repr

/-- Guess submission together with its storage effect: the high-score key is
written exactly when `submitGuess` performs its
`AsyncStorage.setItem('highScore', ...)` call. -/
def gameScreenSubmitGuess (s : GameState) (isCorrect : Bool)
    (kv : GameScreenStore) : GameState × GameScreenStore :=
  let r := submitGuess s isCorrect
  (r.1,
    match r.2 with
    | some v => { kv with highScore := some v }
    | none => kv)

/-- Embedding of the storage effects of `handleReturnToMainMenu` followed by
the unmount cleanup that the `navigation.navigate('MainMenu')` call triggers
(MainMenu.tsx lines 1321-1342 and 1467-1476): the suppression flag is set,
`clearPersistedGameState` removes only the session snapshot key, and the
cleanup then consumes the flag without writing.  The score-submission call
inside the handler touches no storage. -/
def explicitExit (kv : GameScreenStore) (snapshot : Option PersistedGameState)
    (now : Int) : Bool × GameScreenStore :=
  let kv1 := { kv with gameState := none }
  let step := gameScreenUnmountCleanup true snapshot now kv1.gameState
  (step.skipPersist, { kv1 with gameState := step.store })

/-- Embedding of the `loadHighScore` effect (MainMenu.tsx lines 1408-1420):
on mount, a truthy stored value under the high-score key is parsed in base 10
and placed into the `highScore` state. -/
def loadHighScore (kv : GameScreenStore) (s : GameState) : GameState :=
  match kv.highScore with
  | some v => { s with highScore := v }
  | none => s

/-! ## AI-duel screen

State and persistence of the `AiDuel` component.  The round, score, status,
guess-response and history types come from `services/aiDuelUtils`, a module
that is not under `src/`; the persistence logic only stores and passes these
values through, so the round carries the fields the screen reads and the
response and history entries are modelled as atoms. -/

structure AiDuelRound where
  roundIndex : Int
  imageUrl : Option String
  contributor : Option String
deriving DecidableEq, Repr

structure AiDuelScores where
  player : Int
  ai : Int
deriving DecidableEq, Repr

def DEFAULT_SCORES : AiDuelScores := { player := 0, ai := 0 }

inductive AiDuelStatus
  | inProgress
  | completed
deriving DecidableEq, Repr

/-- Opaque guess-response payload from `services/aiDuelUtils`, treated
generically by the persistence code. -/
structure AiDuelGuessResponse where
  token : Nat
deriving DecidableEq, Repr

/-- Opaque history entry from `services/aiDuelUtils`, treated generically by
the persistence code. -/
structure AiDuelHistoryEntry where
  token : Nat
deriving DecidableEq, Repr

/-- In-memory state of the `AiDuel` component, one field per `useState` hook
(unnamed source file, lines 100-117). -/
structure AiDuelState where
  loading : Bool
  submitting : Bool
  errorMessage : String
  matchId : Option String
  currentRound : Option AiDuelRound
  queuedRound : Option AiDuelRound
  totalRounds : Int
  scores : AiDuelScores
  status : AiDuelStatus
  guess : String
  latestResult : Option AiDuelGuessResponse
  history : List AiDuelHistoryEntry
  zoomImage : Bool
  prefetchedImageUrl : Option String
deriving DecidableEq, Repr

/-- Initial values of the `useState` hooks of `AiDuel` when no prefetched
round is passed through navigation parameters. -/
def initialAiDuelState : AiDuelState :=
  { loading := true
    submitting := false
    errorMessage := ""
    matchId := none
    currentRound := none
    queuedRound := none
    totalRounds := 0
    scores := DEFAULT_SCORES
    status := .inProgress
    guess := ""
    latestResult := none
    history := []
    zoomImage := false
    prefetchedImageUrl := none }

/-- Record written under the key `geofinder.aiDuelState.v1` (the
`PersistedAiDuelState` type of the unnamed source file, lines 76-90). -/
structure PersistedAiDuelState where
  matchId : Option String
  currentRound : Option AiDuelRound
  queuedRound : Option AiDuelRound
  totalRounds : Int
  scores : Option AiDuelScores
  status : Option AiDuelStatus
  guess : String
  latestResult : Option AiDuelGuessResponse
  history : List AiDuelHistoryEntry
  prefetchedImageUrl : Option String
  prefetchedRoundUrl : Option String
  errorMessage : String
  savedAt : Option Int
deriving DecidableEq, Repr

/-- Raw content found under the AI-duel snapshot key. -/
inductive StoredAiValue
  | garbled
  | record (p : PersistedAiDuelState)
deriving DecidableEq, Repr

def STATE_MAX_AGE_MS : Int := 1000 * 60 * 60 * 8

/-- Result of an AI-duel restore attempt. -/
structure AiRestoreOutcome where
  found : Bool
  store : Option StoredAiValue
  state : AiDuelState
deriving DecidableEq, Repr

/-- Embedding of `restorePersistedAiDuelState` (unnamed source file, lines
201-246).  After the timestamp and freshness checks pass, every in-memory
field is hydrated from the snapshot (with the per-field defaults of the
source), `loading`, `submitting` and `zoomImage` are cleared, and only then
does the call return `Boolean(parsed.matchId || parsed.currentRound)` - so a
fresh snapshot with neither a match id nor a current round reports false
after having already mutated the state. -/
def restorePersistedAiDuelState (st : Option StoredAiValue) (now : Int)
    (s : AiDuelState) : AiRestoreOutcome :=
  match st with
  | none => ⟨false, none, s⟩
  | some .garbled => ⟨false, some .garbled, s⟩
  | some (.record p) =>
    match p.savedAt with
    | none => ⟨false, none, s⟩
    | some t =>
      if STATE_MAX_AGE_MS < now - t then ⟨false, none, s⟩
      else
        let s1 : AiDuelState :=
          { s with
            matchId := p.matchId
            currentRound := p.currentRound
            queuedRound := p.queuedRound
            totalRounds := p.totalRounds
            scores := p.scores.getD DEFAULT_SCORES
            status := p.status.getD .inProgress
            guess := p.guess
            latestResult := p.latestResult
            history := p.history
            prefetchedImageUrl :=
              match p.prefetchedImageUrl with
              | some u => some u
              | none => p.prefetchedRoundUrl
            errorMessage := p.errorMessage
            loading := false
            submitting := false
            zoomImage := false }
        ⟨p.matchId.isSome || p.currentRound.isSome, some (.record p), s1⟩

/-- Embedding of `resetState` (unnamed source file, lines 124-134). -/
def aiResetState (s : AiDuelState) : AiDuelState :=
  { s with
    guess := ""
    scores := DEFAULT_SCORES
    queuedRound := none
    latestResult := none
    history := []
    status := .inProgress
    errorMessage := ""
    currentRound := none
    matchId := none }

/-- Synchronous beginning of `bootstrap` (unnamed source file, lines
248-251), which runs whenever the restore attempt reported false:
`setLoading(true)`, `clearPersistedAiDuelState()` and `resetState()` all
happen before the external `startAiMatch` call is awaited. -/
def aiBootstrapPrefix (s : AiDuelState) (_st : Option StoredAiValue) :
    AiDuelState × Option StoredAiValue :=
  (aiResetState { s with loading := true }, none)

/-- Concrete fresh AI-duel snapshot with neither a match id nor a current
round but with distinctive values in the other fields. -/
def strayAiSnapshot : PersistedAiDuelState :=
  { matchId := none
    currentRound := none
    queuedRound := some { roundIndex := 2, imageUrl := some "https://img/queued", contributor := none }
    totalRounds := 5
    scores := some { player := 2, ai := 1 }
    status := some .inProgress
    guess := "finland"
    latestResult := some { token := 7 }
    history := [{ token := 3 }, { token := 4 }]
    prefetchedImageUrl := some "https://img/prefetched"
    prefetchedRoundUrl := none
    errorMessage := ""
    savedAt := some 1000 }

/-! ## Concrete sample values used by the closed statements below -/

/-- Sample persisted game snapshot with an active round. -/
def samplePersistedGameState : PersistedGameState :=
  { imageUrl := some "https://img/round"
    country := some "france"
    countryCode := some "FR"
    displayName := some "France"
    coord := some { lat := 48, lon := 2 }
    contributor := some "mapper"
    guess := ""
    guessCount := 1
    incorrectGuesses := ["spain"]
    feedback := "❌ Not quite. Try again! (Guess 1/3)"
    gameOver := false
    currentScore := 4
    highScore := 9
    nextRound := none
    roundNumber := 3
    correctAnswers := 1
    completedRounds := 2
    showGameSummary := false
    gameSessionId := some "session-17"
    submitToLeaderboard := false
    isContinued := true
    savedAt := none }

/-! ## Theorems -/

/-- C1: for a pair of prefetch requests issued in order on a screen (request
A, then request B), only the payload of the most recently issued request is
ever stored in the prefetch slot: whether A completes after B or before it,
the slot ends holding the payload of B; the completion of A is never an
accepted fill once B has been issued, so no interleaving of the two
completions produces two accepted writes; and in general a completion whose
token differs from the current counter leaves the state untouched. -/
theorem prefetch_latest_request_wins {α : Type} (s0 : PrefetchState α) (pa pb : α) :
    ((prefetchResolve (prefetchResolve (prefetchIssue (prefetchIssue s0).1).1
          (prefetchIssue (prefetchIssue s0).1).2 (some pb))
          (prefetchIssue s0).2 (some pa)).slot = some pb
      ∧ (prefetchResolve (prefetchResolve (prefetchIssue (prefetchIssue s0).1).1
          (prefetchIssue s0).2 (some pa))
          (prefetchIssue (prefetchIssue s0).1).2 (some pb)).slot = some pb
      ∧ prefetchAccepted (prefetchIssue (prefetchIssue s0).1).1
          (prefetchIssue s0).2 (some pa) = false
      ∧ prefetchAccepted (prefetchResolve (prefetchIssue (prefetchIssue s0).1).1
          (prefetchIssue (prefetchIssue s0).1).2 (some pb))
          (prefetchIssue s0).2 (some pa) = false)
    ∧ ∀ (s : PrefetchState α) (requestId : Nat) (result : Option α),
        requestId ≠ s.counter → prefetchResolve s requestId result = s := by
  constructor
  · refine ⟨?_, ?_, ?_, ?_⟩ <;>
      simp [prefetchIssue, prefetchResolve, prefetchAccepted]
  · intro s requestId result h
    cases result with
    | none => rfl
    | some r => simp [prefetchResolve, Ne.symm h]

/-- Witness for C1 at a concrete state: the stale-token completion hypothesis
is discharged at counter 2 against token 1. -/
theorem prefetch_latest_request_wins_witness :
    (1 : Nat) ≠ (PrefetchState.mk 2 (none : Option Nat)).counter
    ∧ prefetchResolve (PrefetchState.mk 2 (none : Option Nat)) 1 (some 5) =
        PrefetchState.mk 2 none :=
  ⟨by decide,
    (prefetch_latest_request_wins (PrefetchState.mk 0 (none : Option Nat)) 5 6).2
      (PrefetchState.mk 2 none) 1 (some 5) (by decide)⟩

/-- C2: scoring of `submitGuess` on the single-player and panorama screens: a
correct guess on attempt 1 adds 3 points to the cumulative score, on attempt
2 adds 2, on attempt 3 adds 1, each fixed by the attempt count at the moment
the guess is correct; and a 4th incorrect attempt ends the round as a
failure, adding 0 points when the continued flag is clear and subtracting 1
point when it is set, with no high-score write. -/
theorem submitGuess_scoring (s : GameState) (h : jsTrim s.guess ≠ "") :
    (s.guessCount = 0 → (submitGuess s true).1.currentScore = s.currentScore + 3)
    ∧ (s.guessCount = 1 → (submitGuess s true).1.currentScore = s.currentScore + 2)
    ∧ (s.guessCount = 2 → (submitGuess s true).1.currentScore = s.currentScore + 1)
    ∧ (s.guessCount = 3 →
        (submitGuess s false).1.gameOver = true
        ∧ (submitGuess s false).1.completedRounds = s.completedRounds + 1
        ∧ (submitGuess s false).1.currentScore =
            s.currentScore - (if s.isContinued then 1 else 0)
        ∧ (submitGuess s false).2 = none) := by
  refine ⟨?_, ?_, ?_, ?_⟩ <;> intro hgc <;>
    simp [submitGuess, h, hgc] <;> split_ifs <;> simp_all

/-- Witness for C2 at a concrete state: a first-attempt correct guess on a
round with score 4 yields score 7. -/
theorem submitGuess_scoring_witness :
    jsTrim ({ initialGameState with guess := "france", currentScore := 4 } : GameState).guess ≠ ""
    ∧ (({ initialGameState with guess := "france", currentScore := 4 } : GameState).guessCount = 0 →
        (submitGuess { initialGameState with guess := "france", currentScore := 4 } true).1.currentScore =
          ({ initialGameState with guess := "france", currentScore := 4 } : GameState).currentScore + 3) :=
  ⟨by decide,
    (submitGuess_scoring { initialGameState with guess := "france", currentScore := 4 }
      (by decide)).1⟩

/-- C3 counterexample: with the suppression flag set, a transition to
background does suppress the snapshot write, but the handler leaves the flag
set instead of resetting it to false after this first check, contradicting
the claim that the flag is reset to false immediately after being checked
once. -/
theorem background_event_leaves_flag_set :
    ¬ ((gameScreenAppStateChange .background true (some samplePersistedGameState)
        1000 none).skipPersist = false) := by decide

/-- C3 amended: on the game and panorama screens, when the suppression flag
is set, neither the teardown cleanup nor the background/inactive handler
writes a snapshot (the stored key is left exactly as it was); the teardown
cleanup resets the flag to false after checking it, while the app-state
handler leaves the flag set. -/
theorem suppression_flag_consumed_on_teardown_only
    (snapGame : Option PersistedGameState) (snapPano : Option PersistedPanoState)
    (now : Int) (stGame : Option StoredGameValue) (stPano : Option StoredPanoValue)
    (next : AppStateNext) :
    gameScreenUnmountCleanup true snapGame now stGame = ⟨false, stGame⟩
    ∧ panoUnmountCleanup true snapPano now stPano = ⟨false, stPano⟩
    ∧ gameScreenAppStateChange next true snapGame now stGame = ⟨true, stGame⟩
    ∧ panoAppStateChange next true snapPano now stPano = ⟨true, stPano⟩ := by
  refine ⟨rfl, rfl, ?_, ?_⟩ <;> cases next <;> rfl

/-- C4: the panorama screen's background handler writes a snapshot whose
`panoramaUrl` is null whenever `lastStateRef` is non-null, because the inline
`AsyncStorage.setItem` call skips the core-payload check; the defensive
`persistGameState` helper declared in the same component would have removed
the key for the very same snapshot. -/
theorem pano_background_writes_empty_snapshot :
    (panoAppStateChange .background false (some emptyPanoSnapshot) 1234 none).store =
        some (.record { emptyPanoSnapshot with savedAt := some 1234 })
    ∧ truthyStr emptyPanoSnapshot.panoramaUrl = false
    ∧ panoPersistGameState (some emptyPanoSnapshot) 1234 = none := by decide

/-- C5 counterexample: an unparseable stored value makes `JSON.parse` throw,
so `restorePersistedGameState` lands in its catch block and returns false
without deleting the stored value - the store still contains the key
afterwards, contradicting the claim that a malformed value is deleted. -/
theorem garbled_snapshot_left_in_store :
    (restorePersistedGameState (some .garbled) 1000 initialGameState).found = false
    ∧ ¬ ((restorePersistedGameState (some .garbled) 1000 initialGameState).store = none) := by
  decide

/-- C5 amended: an expired snapshot, a parsed non-object, and a parsed record
without a truthy image URL or a numeric `savedAt` all make the restore report
not-found and delete the stored value; an unparseable value also reports
not-found but is left in the store; and every rejection leaves the in-memory
state completely untouched, so no field is ever partially applied. -/
theorem restore_rejects_stale_and_invalid (st : Option StoredGameValue) (now : Int)
    (s : GameState) :
    ((restorePersistedGameState st now s).found = false →
        (restorePersistedGameState st now s).state = s)
    ∧ (∀ p t, st = some (.record p) → p.savedAt = some t →
        GAME_STATE_MAX_AGE_MS < now - t →
        restorePersistedGameState st now s = ⟨false, none, s⟩)
    ∧ (st = some .atom → restorePersistedGameState st now s = ⟨false, none, s⟩)
    ∧ (∀ p, st = some (.record p) →
        (p.savedAt = none ∨ truthyStr p.imageUrl = false) →
        restorePersistedGameState st now s = ⟨false, none, s⟩)
    ∧ (st = some .garbled →
        restorePersistedGameState st now s = ⟨false, some .garbled, s⟩) := by
  refine ⟨?_, ?_, ?_, ?_, ?_⟩
  · intro hfound
    match st with
    | none => rfl
    | some .garbled => rfl
    | some .atom => rfl
    | some (.record p) =>
      match hs : p.savedAt with
      | none => simp [restorePersistedGameState, hs]
      | some t =>
        simp only [restorePersistedGameState, hs] at hfound ⊢
        split_ifs with h1 h2 <;> simp_all
  · intro p t hst hs hexp
    subst hst
    simp [restorePersistedGameState, hs, hexp]
  · intro hst; subst hst; rfl
  · intro p hst hbad
    subst hst
    rcases hbad with hs | himg
    · simp [restorePersistedGameState, hs]
    · match hs : p.savedAt with
      | none => simp [restorePersistedGameState, hs]
      | some t => simp [restorePersistedGameState, hs, himg]
  · intro hst; subst hst; rfl

/-- Witness for C5 amended at a concrete input: the sample snapshot saved at
time 0 is rejected when restored 8 hours and 1 millisecond later, and the key
is gone afterwards. -/
theorem restore_rejects_stale_and_invalid_witness :
    GAME_STATE_MAX_AGE_MS < (28800001 : Int) - 0
    ∧ restorePersistedGameState
        (some (.record { samplePersistedGameState with savedAt := some 0 }))
        28800001 initialGameState = ⟨false, none, initialGameState⟩ :=
  ⟨by decide,
    (restore_rejects_stale_and_invalid
        (some (.record { samplePersistedGameState with savedAt := some 0 }))
        28800001 initialGameState).2.1
      { samplePersistedGameState with savedAt := some 0 } 0 rfl rfl (by decide)⟩

/-- C6: a snapshot written by `persistGameState` and restored while still
fresh reports found and hydrates every persisted field back to the value that
was saved - the save/restore round trip is the identity on the persisted
state. -/
theorem persist_restore_round_trip (snap : PersistedGameState) (now1 now2 : Int)
    (s : GameState) (himg : truthyStr snap.imageUrl = true)
    (hfresh : now2 - now1 ≤ GAME_STATE_MAX_AGE_MS) :
    (restorePersistedGameState (persistGameState (some snap) now1) now2 s).found = true
    ∧ (restorePersistedGameState (persistGameState (some snap) now1) now2 s).state =
        { s with
          imageUrl := snap.imageUrl
          coord := snap.coord
          contributor := snap.contributor
          country := snap.country
          countryCode := snap.countryCode
          displayName := snap.displayName
          guess := snap.guess
          guessCount := snap.guessCount
          incorrectGuesses := snap.incorrectGuesses
          feedback := snap.feedback
          gameOver := snap.gameOver
          currentScore := snap.currentScore
          highScore := snap.highScore
          roundNumber := snap.roundNumber
          correctAnswers := snap.correctAnswers
          completedRounds := snap.completedRounds
          showGameSummary := snap.showGameSummary
          gameSessionId := snap.gameSessionId
          submitToLeaderboard := snap.submitToLeaderboard
          isContinued := snap.isContinued
          nextRound := snap.nextRound
          loading := false } := by
  have hlt : ¬ (GAME_STATE_MAX_AGE_MS < now2 - now1) := by omega
  simp [persistGameState, restorePersistedGameState, applyPersistedFields, himg, hlt]

/-- Witness for C6 at a concrete input: the sample snapshot saved at time
1000 and restored at time 5000 is found again. -/
theorem persist_restore_round_trip_witness :
    truthyStr samplePersistedGameState.imageUrl = true
    ∧ (5000 : Int) - 1000 ≤ GAME_STATE_MAX_AGE_MS
    ∧ (restorePersistedGameState (persistGameState (some samplePersistedGameState) 1000)
        5000 initialGameState).found = true :=
  ⟨by decide, by decide,
    (persist_restore_round_trip samplePersistedGameState 1000 5000 initialGameState
      (by decide) (by decide)).1⟩

/-- C7 counterexample: with leaderboard submission enabled, a session id
present and score 5, a failed submission on the New Game press leaves the
score, rounds and session untouched and does not start a fresh session,
contradicting the claim that the reset and fresh session happen regardless of
the submission outcome. -/
theorem new_game_failed_submission_keeps_state :
    ¬ ((newGamePress { initialGameState with
          gameSessionId := some "session-17", currentScore := 5 }
        .failure).state.currentScore = 0
      ∧ (newGamePress { initialGameState with
          gameSessionId := some "session-17", currentScore := 5 }
        .failure).sessionRestarted = true) := by decide

/-- C7 amended: the score is submitted exactly when the user has not opted
out, a session id exists and the score is positive; when no submission is
attempted, or the attempted submission succeeds, the score, correct-answer
count, completed-round count and round number are reset and a fresh session
is started - but a failed submission leaves the whole state unchanged and
starts no session. -/
theorem new_game_reset_after_submission (s : GameState) (outcome : SubmitOutcome) :
    ((newGamePress s outcome).submissionAttempted = true ↔
        (s.submitToLeaderboard ∧ s.gameSessionId ≠ none ∧ 0 < s.currentScore))
    ∧ ((newGamePress s outcome).sessionRestarted = true →
        (newGamePress s outcome).state.currentScore = 0
        ∧ (newGamePress s outcome).state.correctAnswers = 0
        ∧ (newGamePress s outcome).state.completedRounds = 0
        ∧ (newGamePress s outcome).state.roundNumber = 1
        ∧ (newGamePress s outcome).state.isContinued = false)
    ∧ ((newGamePress s outcome).sessionRestarted = true ↔
        (outcome = .success
          ∨ ¬ (s.submitToLeaderboard ∧ s.gameSessionId ≠ none ∧ 0 < s.currentScore)))
    ∧ (s.submitToLeaderboard → s.gameSessionId ≠ none → 0 < s.currentScore →
        newGamePress s .failure = ⟨s, true, false⟩) := by
  unfold newGamePress resetForNewGame
  split_ifs with hc
  · cases outcome <;> simp_all
  · cases outcome <;> simp_all
/-- Witness for C7 amended at a concrete input: with submission enabled, a
session id and a positive score, a failed submission is a no-op apart from
the attempt itself. -/
theorem new_game_reset_after_submission_witness :
    ({ initialGameState with
        gameSessionId := some "session-17", currentScore := 5 } : GameState).submitToLeaderboard
    ∧ ({ initialGameState with
        gameSessionId := some "session-17", currentScore := 5 } : GameState).gameSessionId ≠ none
    ∧ (0 : Int) < ({ initialGameState with
        gameSessionId := some "session-17", currentScore := 5 } : GameState).currentScore
    ∧ newGamePress { initialGameState with
        gameSessionId := some "session-17", currentScore := 5 } .failure =
      ⟨{ initialGameState with
          gameSessionId := some "session-17", currentScore := 5 }, true, false⟩ :=
  ⟨by decide, by decide, by decide,
    (new_game_reset_after_submission
        { initialGameState with gameSessionId := some "session-17", currentScore := 5 }
        .failure).2.2.2 (by decide) (by decide) (by decide)⟩

set_option maxHeartbeats 1600000 in
/-- C8: on every guess evaluation starting from a state where the cumulative
score does not exceed the high score (the invariant every reachable session
state satisfies, since the high score is raised whenever it is beaten), the
high score is updated if and only if the new cumulative score strictly
exceeds the previous high score, the value written to durable storage is
exactly the new score, and a new score merely equal to the high score leaves
it unchanged; in particular, from score 5 and high score 4, a correct
first-attempt guess yields score 8 and high score 8 with 8 written to
storage. -/
theorem high_score_update_iff (s : GameState) (b : Bool)
    (h : jsTrim s.guess ≠ "") (hinv : s.currentScore ≤ s.highScore) :
    (((submitGuess s b).2 ≠ none) ↔ s.highScore < (submitGuess s b).1.currentScore)
    ∧ (submitGuess s b).1.highScore = max s.highScore ((submitGuess s b).1.currentScore)
    ∧ (∀ v, (submitGuess s b).2 = some v → v = (submitGuess s b).1.currentScore)
    ∧ ((submitGuess s b).1.currentScore = s.highScore →
        (submitGuess s b).1.highScore = s.highScore)
    ∧ (submitGuess { initialGameState with
        guess := "norway", currentScore := 5, highScore := 4 } true).1.currentScore = 8
    ∧ (submitGuess { initialGameState with
        guess := "norway", currentScore := 5, highScore := 4 } true).1.highScore = 8
    ∧ (submitGuess { initialGameState with
        guess := "norway", currentScore := 5, highScore := 4 } true).2 = some 8 := by
  refine ⟨?_, ?_, ?_, ?_, by decide, by decide, by decide⟩ <;>
    cases b <;> simp [submitGuess, h] <;> split_ifs <;> simp_all <;> omega

/-- Witness for C8 at the concrete example state: score 5, high score 4, a
correct first-attempt guess. -/
theorem high_score_update_iff_witness :
    jsTrim ({ initialGameState with
        guess := "norway", currentScore := 5, highScore := 5 } : GameState).guess ≠ ""
    ∧ ({ initialGameState with
        guess := "norway", currentScore := 5, highScore := 5 } : GameState).currentScore ≤
      ({ initialGameState with
        guess := "norway", currentScore := 5, highScore := 5 } : GameState).highScore
    ∧ (((submitGuess { initialGameState with
          guess := "norway", currentScore := 5, highScore := 5 } true).2 ≠ none) ↔
        ({ initialGameState with
          guess := "norway", currentScore := 5, highScore := 5 } : GameState).highScore <
        (submitGuess { initialGameState with
          guess := "norway", currentScore := 5, highScore := 5 } true).1.currentScore) := by
  refine ⟨by decide, by decide,
    (high_score_update_iff { initialGameState with
        guess := "norway", currentScore := 5, highScore := 5 } true (by decide) (by decide)).1⟩

/-- C9: the high score lives under its own durable key, written immediately
whenever it is beaten by a guess evaluation and never by any other part of
that evaluation; the explicit return-to-menu exit deletes only the session
snapshot key and leaves the stored high score unchanged (and consumes the
suppression flag); and the mount-time loader hydrates the in-memory high
score from that key. -/
theorem high_score_key_independent (s : GameState) (b : Bool)
    (kv : GameScreenStore) (snapshot : Option PersistedGameState) (now : Int) :
    ((submitGuess s b).2 = none → (gameScreenSubmitGuess s b kv).2 = kv)
    ∧ (∀ v, (submitGuess s b).2 = some v →
        (gameScreenSubmitGuess s b kv).2 = { kv with highScore := some v })
    ∧ (gameScreenSubmitGuess s b kv).2.gameState = kv.gameState
    ∧ (explicitExit kv snapshot now).2.highScore = kv.highScore
    ∧ (explicitExit kv snapshot now).2.gameState = none
    ∧ (explicitExit kv snapshot now).1 = false
    ∧ (∀ v, kv.highScore = some v → (loadHighScore kv s).highScore = v) := by
  refine ⟨?_, ?_, ?_, rfl, rfl, rfl, ?_⟩
  · intro hw; simp [gameScreenSubmitGuess, hw]
  · intro v hw; simp [gameScreenSubmitGuess, hw]
  · simp [gameScreenSubmitGuess]
    cases hw : (submitGuess s b).2 <;> simp [hw]
  · intro v hv; simp [loadHighScore, hv]

/-- Witness for C9 at a concrete input: a stored high score of 9 is loaded on
mount, and a no-write guess evaluation leaves the store untouched. -/
theorem high_score_key_independent_witness :
    ((GameScreenStore.mk none (some 9)).highScore = some 9
      → (loadHighScore (GameScreenStore.mk none (some 9)) initialGameState).highScore = 9)
    ∧ (loadHighScore (GameScreenStore.mk none (some 9)) initialGameState).highScore = 9 :=
  ⟨fun _ =>
    (high_score_key_independent initialGameState false (GameScreenStore.mk none (some 9))
        none 0).2.2.2.2.2.2 9 rfl,
    (high_score_key_independent initialGameState false (GameScreenStore.mk none (some 9))
        none 0).2.2.2.2.2.2 9 rfl⟩

/-- C10: on the AI-duel screen, restoring a fresh, correctly timestamped
snapshot whose match id and current round are both null first hydrates every
in-memory field from the snapshot and only then reports false, leaving the
hydrated state in place; the bootstrap path that runs on a false report then
resets that freshly hydrated state and clears the stored key. -/
theorem ai_restore_false_after_hydration (p : PersistedAiDuelState) (t now : Int)
    (s : AiDuelState) (hsaved : p.savedAt = some t)
    (hfresh : now - t ≤ STATE_MAX_AGE_MS)
    (hmatch : p.matchId = none) (hround : p.currentRound = none) :
    restorePersistedAiDuelState (some (.record p)) now s =
      ⟨false, some (.record p),
        { s with
          matchId := none
          currentRound := none
          queuedRound := p.queuedRound
          totalRounds := p.totalRounds
          scores := p.scores.getD DEFAULT_SCORES
          status := p.status.getD .inProgress
          guess := p.guess
          latestResult := p.latestResult
          history := p.history
          prefetchedImageUrl :=
            match p.prefetchedImageUrl with
            | some u => some u
            | none => p.prefetchedRoundUrl
          errorMessage := p.errorMessage
          loading := false
          submitting := false
          zoomImage := false }⟩
    ∧ (aiBootstrapPrefix
        (restorePersistedAiDuelState (some (.record p)) now s).state
        (restorePersistedAiDuelState (some (.record p)) now s).store).1.guess = ""
    ∧ (aiBootstrapPrefix
        (restorePersistedAiDuelState (some (.record p)) now s).state
        (restorePersistedAiDuelState (some (.record p)) now s).store).1.scores =
          DEFAULT_SCORES
    ∧ (aiBootstrapPrefix
        (restorePersistedAiDuelState (some (.record p)) now s).state
        (restorePersistedAiDuelState (some (.record p)) now s).store).1.history = []
    ∧ (aiBootstrapPrefix
        (restorePersistedAiDuelState (some (.record p)) now s).state
        (restorePersistedAiDuelState (some (.record p)) now s).store).2 = none := by
  have hlt : ¬ (STATE_MAX_AGE_MS < now - t) := by omega
  refine ⟨?_, ?_, ?_, ?_, ?_⟩ <;>
    simp [restorePersistedAiDuelState, aiBootstrapPrefix, aiResetState,
      hsaved, hlt, hmatch, hround]

/-- Witness for C10 at the concrete stray snapshot saved at time 1000 and
restored at time 2000: the restore reports false yet the state it leaves
behind carries the guess text of the snapshot. -/
theorem ai_restore_false_after_hydration_witness :
    strayAiSnapshot.savedAt = some 1000
    ∧ (2000 : Int) - 1000 ≤ STATE_MAX_AGE_MS
    ∧ strayAiSnapshot.matchId = none
    ∧ strayAiSnapshot.currentRound = none
    ∧ (restorePersistedAiDuelState (some (.record strayAiSnapshot)) 2000
        initialAiDuelState).found = false
    ∧ (restorePersistedAiDuelState (some (.record strayAiSnapshot)) 2000
        initialAiDuelState).state.guess = "finland" := by
  have h := ai_restore_false_after_hydration strayAiSnapshot 1000 2000
    initialAiDuelState rfl (by decide) rfl rfl
  exact ⟨rfl, by decide, rfl, rfl, by rw [h.1], by rw [h.1]; decide⟩

end Geofinder
